import Mathlib

/-
Verification of the api-gateway repository (Go) against its natural-language
specification.  The Go code is shallowly embedded: pure fragments become Lean
functions, stateful fragments become explicit state passing, Go int64 becomes
Int (no operation here approaches 2^63, so overflow is irrelevant), Go float64
becomes Rat (an exact real-valued model of the float arithmetic; every product
appearing in the claims is exactly representable), Go strings become String or
List Char, and Go maps become functions into Option.
-/

namespace ApiGateway

/-! ## Conversion helpers -/

/-- Truncation of a rational toward zero, the semantics of Go's
`int64(float64Expr)` conversion (source: `int64(float64(delta) * (refillRate / 1000.0))`). -/
def i64trunc (q : ℚ) : ℤ :=
  if 0 ≤ q then ⌊q⌋ else ⌈q⌉

/-! ## In-memory store (src/unnamed/part_004, package repository)

`memoryStore` holds `buckets map[string]*memBucket` and `sw map[string][]int64`,
all guarded by one mutex; operations are modelled as pure state transformers on
those two maps. -/

/-- `memBucket` of part_004 lines 9-12: `tokens int64; last int64`. -/
structure MemBucket where
  tokens : ℤ
  last : ℤ
deriving DecidableEq, Repr

/-- The refill amount of part_004 lines 37-38:
`refill := int64(float64(delta) * (refillRate / 1000.0))` with
`delta := now - b.last`. -/
def tbRefill (b : MemBucket) (refillRate : ℚ) (now : ℤ) : ℤ :=
  i64trunc (((now - b.last : ℤ) : ℚ) * (refillRate / 1000))

/-- The single-bucket core of `memoryStore.TokenBucket` (part_004 lines 37-50):
refill by truncated `delta * rate/1000`, advancing `last` only when the refill
is positive, then deduct when enough tokens remain.  Returns the stored-back
bucket, the allow decision, and the remaining-token count. -/
def tbStep (b : MemBucket) (capacity : ℤ) (refillRate : ℚ) (requested now : ℤ) :
    MemBucket × Bool × ℤ :=
  let refill : ℤ := tbRefill b refillRate now
  let b1 : MemBucket :=
    if 0 < refill then
      { tokens := min capacity (b.tokens + refill), last := now }
    else b
  if requested ≤ b1.tokens then
    ({ b1 with tokens := b1.tokens - requested }, true, b1.tokens - requested)
  else
    (b1, false, b1.tokens)

/-- Lazy creation of part_004 lines 32-36: an absent key gets
`{tokens: capacity, last: now}`. -/
def tbInit (capacity now : ℤ) : MemBucket :=
  { tokens := capacity, last := now }

/-- A sequence of `TokenBucket` operations on one key with fixed
`(capacity, refillRate)`; each list element is `(requested, now)`. -/
def tbRun (capacity : ℤ) (refillRate : ℚ) (b : MemBucket) :
    List (ℤ × ℤ) → MemBucket
  | [] => b
  | op :: rest => tbRun capacity refillRate (tbStep b capacity refillRate op.1 op.2).1 rest

/-- State of `memoryStore`: the `buckets` map and the `sw` map.  Reading a
missing `sw` key yields Go's nil slice, hence the total `List` valuation. -/
structure MemStoreState where
  buckets : String → Option MemBucket
  sw : String → List ℤ

/-- The empty store built by `NewMemoryStore`. -/
def memStoreInit : MemStoreState :=
  { buckets := fun _ => none, sw := fun _ => [] }

/-- `memoryStore.TokenBucket` (part_004 lines 28-51) on the keyed state. -/
def memTokenBucketOp (st : MemStoreState) (key : String) (capacity : ℤ)
    (refillRate : ℚ) (requested now : ℤ) : MemStoreState × Bool × ℤ :=
  let b := (st.buckets key).getD (tbInit capacity now)
  let r := tbStep b capacity refillRate requested now
  ({ st with buckets := fun k => if k = key then some r.1 else st.buckets k },
   r.2.1, r.2.2)

/-- `memoryStore.SlidingWindow` (part_004 lines 53-70) on one key's slice:
drop the longest prefix of entries strictly below `now - windowMillis`
(the loop breaks at the first `arr[i] >= cutoff`), then append `now`.
Returns the new slice and its length. -/
def memSlidingWindow (arr : List ℤ) (now windowMillis : ℤ) : List ℤ × ℤ :=
  let cutoff := now - windowMillis
  let arr1 := arr.dropWhile (fun t => decide (t < cutoff))
  let arr2 := arr1 ++ [now]
  (arr2, arr2.length)

/-- `memoryStore.SlidingWindow` on the keyed state. -/
def memSlidingWindowOp (st : MemStoreState) (key : String) (now windowMillis : ℤ) :
    MemStoreState × ℤ :=
  let r := memSlidingWindow (st.sw key) now windowMillis
  ({ st with sw := fun k => if k = key then r.1 else st.sw k }, r.2)

/-! ## Redis-backed store (src/internal/repository/redis.go)

The Lua script `tokenBucketLua` (lines 28-50) runs atomically inside Redis; Lua
numbers are float64, modelled exactly by Rat.  The Go wrapper (lines 52-74)
passes `refillRate/1000.0` as the script's rate argument. -/

/-- Result of one atomic execution of `tokenBucketLua`: the allow flag, the
returned token count, the hash written back by `HMSET`, and the expiry
requested by `PEXPIRE` in milliseconds. -/
structure RedisTBResult where
  allowed : Bool
  tokens : ℚ
  stored : ℚ × ℚ
  pexpireMs : ℤ
deriving DecidableEq, Repr

/-- The body of `tokenBucketLua` (redis.go lines 28-50).  `hash` is the stored
`(tokens, last)` pair, absent on first use. -/
def redisTokenBucketScript (hash : Option (ℚ × ℚ)) (capacity rate now requested : ℚ) :
    RedisTBResult :=
  let tokens := (hash.map Prod.fst).getD capacity
  let last := (hash.map Prod.snd).getD now
  let delta := max 0 (now - last)
  let refill := delta * rate
  let tokens1 := min capacity (tokens + refill)
  let allowed := requested ≤ tokens1
  let tokens2 := if requested ≤ tokens1 then tokens1 - requested else tokens1
  { allowed := allowed
    tokens := tokens2
    stored := (tokens2, now)
    pexpireMs := ⌈(capacity / rate) * 1000 * 2⌉ }

/-- `redisStore.TokenBucket` (redis.go lines 52-74): the script is invoked with
the per-second rate rescaled to per-millisecond (`refillRate/1000.0`). -/
def redisTokenBucketGo (hash : Option (ℚ × ℚ)) (capacity : ℤ) (refillRate : ℚ)
    (now requested : ℤ) : RedisTBResult :=
  redisTokenBucketScript hash (capacity : ℚ) (refillRate / 1000) (now : ℚ) (requested : ℚ)

/-- `redisStore.SlidingWindow` (redis.go lines 76-88) on one sorted-set key:
`ZADD` inserts the member `now` (a set: re-adding an existing member does not
duplicate it), `ZREMRANGEBYSCORE -inf (now-windowMillis)` removes every member
with score at most the cutoff (the bound is inclusive), `ZCARD` counts.
Returns the retained members and the count. -/
def redisSlidingWindow (arr : List ℤ) (now windowMillis : ℤ) : List ℤ × ℤ :=
  let cutoff := now - windowMillis
  let withNow := if now ∈ arr then arr else arr ++ [now]
  let kept := withNow.filter (fun t => decide (cutoff < t))
  (kept, kept.length)

/-! ## RBAC pattern matching (src/unnamed/part_010, `matchPath`)

Go strings are modelled as lists of characters so that prefix/suffix structure
can be reasoned about directly.  `strings.HasSuffix`, `strings.TrimSuffix` and
`strings.HasPrefix` become `List.isSuffixOf`, `List.take (length - 2)` and
`List.isPrefixOf`. -/

/-- The wildcard suffix `"/*"`. -/
def sufWild : List Char := ['/', '*']

/-- `matchPath` (part_010 lines 69-82): exact match first, else a pattern with
suffix `"/*"` matches any path having `TrimSuffix(pattern, "/*") + "/"` as a
prefix; anything else does not match. -/
def matchPath (pat path : List Char) : Bool :=
  if pat = path then true
  else if sufWild.isSuffixOf pat then
    (pat.take (pat.length - 2) ++ ['/']).isPrefixOf path
  else false

/-! ## Response cache (src/unnamed/part_002, package service, cache part) -/

/-- `CacheableResponse` (part_002 cache section lines 381-390): the
`cacheControl` argument is the result of `headers.Get("Cache-Control")`, i.e.
the first value of that header or `""`.  The Go code compares it for equality
with the literal directives, then accepts status 200 or 404. -/
def cacheableResponse (status : Nat) (cacheControl : String) : Bool :=
  if cacheControl = "no-cache" ∨ cacheControl = "no-store" then false
  else decide (status = 200) || decide (status = 404)

/-! ## Circuit breaker (src/unnamed/part_002, package service) -/

/-- `CircuitState` constants of part_002 lines 11-15. -/
inductive CircuitState where
  | StateClosed
  | StateOpen
  | StateHalfOpen
deriving DecidableEq, Repr

/-- `CircuitBreaker` fields (part_002 lines 18-29).  Durations and instants are
in milliseconds; Go's zero `time.Time` is modelled as instant 0. -/
structure CircuitBreaker where
  state : CircuitState
  failureCount : ℤ
  successCount : ℤ
  failureThreshold : ℤ
  successThreshold : ℤ
  timeout : ℤ
  lastFailureTime : ℤ
  maxConcurrentRequests : ℤ
  currentRequests : ℤ
deriving DecidableEq, Repr

/-- `NewCircuitBreaker` (part_002 lines 32-40). -/
def NewCircuitBreaker (failureThreshold successThreshold timeout : ℤ) : CircuitBreaker :=
  { state := .StateClosed
    failureCount := 0
    successCount := 0
    failureThreshold := failureThreshold
    successThreshold := successThreshold
    timeout := timeout
    lastFailureTime := 0
    maxConcurrentRequests := 100
    currentRequests := 0 }

/-- `recordFailure` (part_002 lines 89-97): increment the failure count, stamp
`lastFailureTime`, zero the success count, and open the breaker only once
`failureCount >= failureThreshold`. -/
def recordFailure (cb : CircuitBreaker) (now : ℤ) : CircuitBreaker :=
  let cb1 := { cb with
    failureCount := cb.failureCount + 1
    lastFailureTime := now
    successCount := 0 }
  if cb1.failureThreshold ≤ cb1.failureCount then { cb1 with state := .StateOpen }
  else cb1

/-- `recordSuccess` (part_002 lines 100-108). -/
def recordSuccess (cb : CircuitBreaker) : CircuitBreaker :=
  let cb1 := { cb with failureCount := 0, successCount := cb.successCount + 1 }
  if cb1.state = .StateHalfOpen ∧ cb1.successThreshold ≤ cb1.successCount then
    { cb1 with state := .StateClosed, successCount := 0 }
  else cb1

/-- Result of `CircuitBreaker.Call`: either rejected with
`ErrCircuitBreakerOpen`, or the wrapped function ran (and failed or not). -/
inductive CallOutcome where
  | rejected
  | completed (failed : Bool)
deriving DecidableEq, Repr

/-- `CircuitBreaker.Call` (part_002 lines 43-86) executed sequentially: the
open-state timeout check may move the breaker to half-open; the half-open
concurrency gate may reject; otherwise the wrapped function runs (its failure
is the `failed` argument) and `recordFailure`/`recordSuccess` applies.  The
`currentRequests` increment and deferred decrement cancel in this sequential
model. -/
def cbCall (cb : CircuitBreaker) (now : ℤ) (failed : Bool) : CircuitBreaker × CallOutcome :=
  if cb.state = .StateOpen ∧ ¬ (cb.timeout < now - cb.lastFailureTime) then
    (cb, .rejected)
  else
    let cb1 :=
      if cb.state = .StateOpen then { cb with state := .StateHalfOpen, successCount := 0 }
      else cb
    if cb1.state = .StateHalfOpen ∧ cb1.maxConcurrentRequests ≤ cb1.currentRequests then
      (cb1, .rejected)
    else
      let cb2 := if failed then recordFailure cb1 now else recordSuccess cb1
      (cb2, .completed failed)

/-- Sequential execution of a list of calls, each given as
`(now, whether the wrapped function fails)`. -/
def cbRun (cb : CircuitBreaker) : List (ℤ × Bool) → CircuitBreaker
  | [] => cb
  | c :: rest => cbRun (cbCall cb c.1 c.2).1 rest

/-! ## API keys (src/internal/middleware/apikey.go) -/

/-- `APIKey` record (apikey.go lines 16-23); allowed paths are char-list
strings so they can feed `matchPath`. -/
structure APIKey where
  key : String
  name : String
  role : String
  enabled : Bool
  paths : List (List Char)
  rateLimit : ℤ
deriving DecidableEq, Repr

/-- `APIKeyError` (apikey.go lines 94-101). -/
structure APIKeyError where
  code : String
  message : String
deriving DecidableEq, Repr

/-- `ErrInvalidAPIKey` (apikey.go line 104). -/
def ErrInvalidAPIKey : APIKeyError :=
  { code := "invalid_api_key", message := "API key is invalid" }

/-- `ErrAPIKeyDisabled` (apikey.go line 105). -/
def ErrAPIKeyDisabled : APIKeyError :=
  { code := "api_key_disabled", message := "API key is disabled" }

/-- `ErrAPIKeyPathDenied` (apikey.go line 106). -/
def ErrAPIKeyPathDenied : APIKeyError :=
  { code := "api_key_path_denied", message := "API key not allowed for this path" }

/-- `APIKeyStore.ValidateKey` (apikey.go lines 55-80).  The store's map is a
function from key strings to optional records (`GetKey`). -/
def validateKey (store : String → Option APIKey) (key : String) (path : List Char) :
    Except APIKeyError APIKey :=
  match store key with
  | none => .error ErrInvalidAPIKey
  | some apiKey =>
    if apiKey.enabled = false then .error ErrAPIKeyDisabled
    else if apiKey.paths ≠ [] ∧ apiKey.paths.all (fun p => ¬ matchPath p path) then
      .error ErrAPIKeyPathDenied
    else .ok apiKey

/-- Observable outcome of the API-key middleware `Handler` (apikey.go lines
122-150) on one request. -/
inductive APIKeyMwOutcome where
  | passUnchanged
  | httpError (status : Nat) (body : String)
  | forwarded (userRole apiKeyName authMethod : String)
deriving DecidableEq, Repr

/-- The API-key middleware `Handler` (apikey.go lines 122-150): an absent
`X-API-Key` header passes the request through; a validation error of any kind
produces `http.Error(w, "Unauthorized: invalid API key", 401)`; a valid key
injects `X-User-Role`, `X-API-Key-Name` and `X-Auth-Method: api-key`. -/
def apiKeyHandler (store : String → Option APIKey) (headerKey : String)
    (path : List Char) : APIKeyMwOutcome :=
  if headerKey = "" then .passUnchanged
  else
    match validateKey store headerKey path with
    | .error _ => .httpError 401 "Unauthorized: invalid API key"
    | .ok k => .forwarded k.role k.name "api-key"

/-! ## Limiter (src/unnamed/part_001, package service) -/

/-- `Policy` (part_001 lines 19-25); the `Algorithm` field is a Go string. -/
structure Policy where
  algorithm : String
  capacity : ℤ
  rate : ℚ
  windowMs : ℤ
  limit : ℤ
deriving DecidableEq, Repr

/-- `TokenBucketAlg` constant (part_001 line 14). -/
def TokenBucketAlg : String := "tokenbucket"

/-- `SlidingWindowAlg` constant (part_001 line 15). -/
def SlidingWindowAlg : String := "slidingwindow"

/-- `Limiter.Allow` (part_001 lines 39-62) over the in-memory store, evaluated
at clock reading `now`: token-bucket policies request one token under the
`tb:`-prefixed key; sliding-window policies count under the `sw:`-prefixed key
and allow while `count <= limit`; unknown algorithms error. -/
def limiterAllow (st : MemStoreState) (key : String) (p : Policy) (now : ℤ) :
    Except String (MemStoreState × Bool × ℤ) :=
  if p.algorithm = TokenBucketAlg then
    .ok (memTokenBucketOp st ("tb:" ++ key) p.capacity p.rate 1 now)
  else if p.algorithm = SlidingWindowAlg then
    let r := memSlidingWindowOp st ("sw:" ++ key) now p.windowMs
    .ok (r.1, decide (r.2 ≤ p.limit), max (p.limit - r.2) 0)
  else .error "unknown algorithm"

/-- Back-to-back `Allow` calls on one key, threading store state; each list
element is a clock reading.  (An error leaves the store untouched, as in the
source, where only the unknown-algorithm branch errors for the in-memory
store.) -/
def runAllowSeq (st : MemStoreState) (key : String) (p : Policy) :
    List ℤ → MemStoreState × List (Except String (Bool × ℤ))
  | [] => (st, [])
  | now :: rest =>
    match limiterAllow st key p now with
    | .ok (st1, a, r) =>
      let out := runAllowSeq st1 key p rest
      (out.1, .ok (a, r) :: out.2)
    | .error e =>
      let out := runAllowSeq st key p rest
      (out.1, .error e :: out.2)

/-! ## Middleware pipeline (src/cmd/gateway/main.go lines 74-78 and the
middleware package)

A handler maps a request and the in-memory store state to a new store state
and a response.  Only the request fields the composed chain reads appear in
the model; the structured-log side effect of `Logging` and the body-stream
capping of `RequestSizeLimit` are external effects with no bearing on the
claims. -/

/-- The request fields consumed by the gateway chain. -/
structure GatewayRequest where
  method : String
  path : String
  xRequestID : String
  xAPIKey : String
  xForwardedFor : String
  remoteAddr : String
  contentLength : ℤ
deriving DecidableEq, Repr

/-- An HTTP response: status, produced headers (in order), body. -/
structure HTTPResponse where
  status : Nat
  headers : List (String × String)
  body : String
deriving DecidableEq, Repr

/-- A request handler over the shared in-memory store. -/
def Handler : Type := GatewayRequest → MemStoreState → MemStoreState × HTTPResponse

/-- `middleware.RequestID` (requestid.go): reuse the incoming `X-Request-ID` or
assign the freshly generated value `fresh`, echo it as a response header, and
run the inner handler with the header set. -/
def RequestID (fresh : String) (next : Handler) : Handler := fun r st =>
  let id := if r.xRequestID = "" then fresh else r.xRequestID
  let out := next { r with xRequestID := id } st
  (out.1, { out.2 with headers := ("X-Request-ID", id) :: out.2.headers })

/-- `middleware.Logging` (logging.go): emits a structured log line (an external
effect) and otherwise passes through. -/
def Logging (next : Handler) : Handler := fun r st => next r st

/-- `clientIP` (part_009 lines 72-82): first element of `X-Forwarded-For`
trimmed, else the peer address (the port-stripping of `net.SplitHostPort` is
abstracted by taking `remoteAddr` to be the host). -/
def clientIP (r : GatewayRequest) : String :=
  if r.xForwardedFor ≠ "" then ((r.xForwardedFor.splitOn ",").headD "").trim
  else r.remoteAddr

/-- `middleware.RateLimit` (part_009 lines 20-69) evaluated at clock reading
`now` against policy table `ps`: fingerprint from `X-API-Key` or client IP
joined with the path, limiter evaluation, rate-limit headers, 429 on deny, 500
on limiter error.  `X-RateLimit-Reset` is the epoch second one ahead of
`now`. -/
def RateLimit (ps : String → Policy) (now : ℤ) (next : Handler) : Handler := fun r st =>
  let key := if r.xAPIKey ≠ "" then r.xAPIKey else clientIP r
  let lookupKey := key ++ ":" ++ r.path
  let p := ps lookupKey
  match limiterAllow st lookupKey p now with
  | .error _ => (st, { status := 500, headers := [], body := "internal" })
  | .ok (st1, allowed, remaining) =>
    let rlHeaders : List (String × String) :=
      [("X-RateLimit-Limit", toString p.capacity),
       ("X-RateLimit-Remaining", toString remaining),
       ("X-RateLimit-Reset", toString (now / 1000 + 1))]
    if allowed = false then
      (st1, { status := 429
              headers := rlHeaders ++ [("Retry-After", "1")]
              body := "rate_limited" })
    else
      let out := next r st1
      (out.1, { out.2 with headers := rlHeaders ++ out.2.headers })

/-- `middleware.MaxRequestSize` (limits.go line 11): 10 MiB. -/
def MaxRequestSize : ℤ := 10 * 1024 * 1024

/-- `middleware.RequestSizeLimit` (limits.go lines 15-30): reject with 413 when
the declared content length exceeds `maxBytes`, otherwise cap the body stream
(external effect) and continue. -/
def RequestSizeLimit (maxBytes : ℤ) (next : Handler) : Handler := fun r st =>
  if maxBytes < r.contentLength then
    (st, { status := 413, headers := [], body := "request body too large" })
  else next r st

/-- The composed chain of main.go lines 74-78:

  h := middleware.RequestID(mux)
  h = middleware.Logging(h)
  h = middleware.RateLimit(limSvc, metricsRegistry, policyStore)(h)
  h = middleware.RequestSizeLimit(middleware.MaxRequestSize)(h)

so `RequestSizeLimit` is the outermost wrapper and `RequestID` the innermost,
immediately around the mux (`app`). -/
def gatewayChain (app : Handler) (ps : String → Policy) (fresh : String) (now : ℤ) :
    Handler :=
  RequestSizeLimit MaxRequestSize (RateLimit ps now (Logging (RequestID fresh app)))

/-! ## Theorems -/

/-- One token-bucket step keeps the stored token count within
`[0, capacity]`, for any non-negative request. -/
theorem tbStep_bounds (b : MemBucket) (capacity : ℤ) (refillRate : ℚ)
    (requested now : ℤ) (hcap : 0 ≤ capacity) (h0 : 0 ≤ b.tokens)
    (h1 : b.tokens ≤ capacity) (hreq : 0 ≤ requested) :
    0 ≤ (tbStep b capacity refillRate requested now).1.tokens ∧
    (tbStep b capacity refillRate requested now).1.tokens ≤ capacity := by
  unfold tbStep
  dsimp only
  split <;> split <;> simp_all <;> omega

/-- C6: with a token-bucket policy of capacity 5 and rate 5, six back-to-back
`Allow` calls at one instant on the fresh key `k` decide
allow, allow, allow, allow, allow, deny with remaining 4, 3, 2, 1, 0, 0. -/
theorem bucket_burst_then_deny :
    (runAllowSeq memStoreInit "k"
      { algorithm := "tokenbucket", capacity := 5, rate := 5, windowMs := 0, limit := 0 }
      [0, 0, 0, 0, 0, 0]).2 =
    [.ok (true, 4), .ok (true, 3), .ok (true, 2), .ok (true, 1), .ok (true, 0),
     .ok (false, 0)] := by
  norm_num [runAllowSeq, limiterAllow, memTokenBucketOp, memStoreInit, tbInit, tbStep,
    tbRefill, i64trunc, TokenBucketAlg, SlidingWindowAlg]

/-- C7: for any sequence of in-memory token-bucket operations on one key with
fixed capacity > 0, non-negative requests and a non-decreasing clock, the
stored bucket satisfies `0 ≤ tokens ≤ capacity` after every operation. -/
theorem tokenBucket_tokens_in_range (capacity : ℤ) (refillRate : ℚ)
    (b : MemBucket) (ops : List (ℤ × ℤ)) (hcap : 0 < capacity)
    (hb0 : 0 ≤ b.tokens) (hb1 : b.tokens ≤ capacity)
    (hreq : ∀ op ∈ ops, 0 ≤ op.1)
    (hclock : List.Chain' (· ≤ ·) (ops.map Prod.snd)) :
    0 ≤ (tbRun capacity refillRate b ops).tokens ∧
    (tbRun capacity refillRate b ops).tokens ≤ capacity := by
  induction ops generalizing b with
  | nil => exact ⟨hb0, hb1⟩
  | cons op rest ih =>
    have hb := tbStep_bounds b capacity refillRate op.1 op.2 (le_of_lt hcap) hb0 hb1
      (hreq op (by simp))
    exact ih _ hb.1 hb.2 (fun o ho => hreq o (by simp [ho]))
      (by simpa using hclock.tail)

/-- Witness for C7: the freshly created bucket of capacity 5 stays in range
over two unit requests at one instant. -/
theorem tokenBucket_tokens_in_range_witness :
    0 ≤ (tbRun 5 5 (tbInit 5 0) [(1, 0), (1, 0)]).tokens ∧
    (tbRun 5 5 (tbInit 5 0) [(1, 0), (1, 0)]).tokens ≤ 5 :=
  tokenBucket_tokens_in_range 5 5 (tbInit 5 0) [(1, 0), (1, 0)]
    (by norm_num) (by norm_num [tbInit]) (by norm_num [tbInit])
    (by norm_num) (by norm_num)

/-- C10: when the truncated refill is below one whole token, the stored bucket
keeps both its token count (up to the possible deduction) and its `last`
timestamp, so the elapsed interval keeps accruing; when the truncated refill
is at least one token, `last` advances to `now`. -/
theorem tokenBucket_refill_truncation (b : MemBucket) (capacity : ℤ)
    (refillRate : ℚ) (requested now : ℤ) :
    (tbRefill b refillRate now < 1 →
      (tbStep b capacity refillRate requested now).1.last = b.last ∧
      (tbStep b capacity refillRate requested now).1.tokens =
        b.tokens - (if requested ≤ b.tokens then requested else 0) ∧
      (tbStep b capacity refillRate requested now).2.2 =
        b.tokens - (if requested ≤ b.tokens then requested else 0)) ∧
    (1 ≤ tbRefill b refillRate now →
      (tbStep b capacity refillRate requested now).1.last = now) := by
  constructor
  · intro hlt
    have hnot : ¬ 0 < tbRefill b refillRate now := by omega
    unfold tbStep
    simp only [hnot, if_false]
    split <;> rename_i h <;> simp [h]
  · intro hge
    have hpos : 0 < tbRefill b refillRate now := by omega
    unfold tbStep
    simp only [hpos, if_true]
    split <;> rfl

/-- Witness for C10: a bucket last refilled at 1000 ms with rate 5/s, probed
100 ms later, gains no token (truncated refill 0) and keeps `last = 1000`;
the same bucket probed 1000 ms later has refill 5 and `last` advances. -/
theorem tokenBucket_refill_truncation_witness :
    (tbStep (MemBucket.mk 3 1000) 5 5 1 1100).1.last = 1000 ∧
    (tbStep (MemBucket.mk 3 1000) 5 5 1 2000).1.last = 2000 :=
  ⟨((tokenBucket_refill_truncation (MemBucket.mk 3 1000) 5 5 1 1100).1
      (by norm_num [tbRefill, i64trunc])).1,
   (tokenBucket_refill_truncation (MemBucket.mk 3 1000) 5 5 1 2000).2
      (by norm_num [tbRefill, i64trunc])⟩

/-- C2 (failing execution): breaker `(failureThreshold 3, successThreshold 2,
timeout 100 ms)`; three failures at t = 0 open it; a successful call at
t = 200 moves it to half-open and resets `failureCount` to 0; the failing call
at t = 210 then leaves the breaker in half-open (failure count 1 < 3) instead
of transitioning to open. -/
theorem halfOpen_failure_keeps_halfOpen :
    (cbRun (NewCircuitBreaker 3 2 100)
      [(0, true), (0, true), (0, true), (200, false), (210, true)]).state =
      CircuitState.StateHalfOpen ∧
    CircuitState.StateHalfOpen ≠ CircuitState.StateOpen := by
  decide

/-- C1 (failing execution): `RequestSizeLimit` is the outermost middleware of
the chain composed in main.go, so every request whose declared content length
exceeds 10 MiB is rejected with a bare 413 before the rate limiter, the
logger, or the request-id middleware runs: the store is returned unchanged and
the response carries neither rate-limit headers nor an `X-Request-ID`. -/
theorem oversize_request_rejected_before_rate_limit (app : Handler)
    (ps : String → Policy) (fresh : String) (now : ℤ) (r : GatewayRequest)
    (st : MemStoreState) (h : MaxRequestSize < r.contentLength) :
    gatewayChain app ps fresh now r st =
      (st, { status := 413, headers := [], body := "request body too large" }) := by
  simp [gatewayChain, RequestSizeLimit, if_pos h]

/-- Witness for C1: a concrete request of 10 MiB + 1 bytes is turned away with
the limiter store untouched. -/
theorem oversize_request_rejected_before_rate_limit_witness :
    gatewayChain (fun _ st => (st, { status := 200, headers := [], body := "" }))
      (fun _ => { algorithm := "tokenbucket", capacity := 100, rate := 100,
                  windowMs := 0, limit := 0 })
      "id-1" 0
      { method := "POST", path := "/x", xRequestID := "", xAPIKey := "",
        xForwardedFor := "", remoteAddr := "10.0.0.1", contentLength := 10485761 }
      memStoreInit =
    (memStoreInit, { status := 413, headers := [], body := "request body too large" }) :=
  oversize_request_rejected_before_rate_limit _ _ _ _ _ _ (by norm_num [MaxRequestSize])

/-- Every element surviving `dropWhile (· < c)` in a sorted list is at least
`c`. -/
theorem sorted_dropWhile_lt_ge (c : ℤ) :
    ∀ (l : List ℤ), l.Sorted (· ≤ ·) →
      ∀ x ∈ l.dropWhile (fun t => decide (t < c)), c ≤ x := by
  intro l
  induction l with
  | nil => simp
  | cons a t ih =>
    intro hs x hx
    rw [List.dropWhile_cons] at hx
    by_cases h : a < c
    · simp [h] at hx
      exact ih hs.of_cons x hx
    · simp [h] at hx
      rcases hx with rfl | hmem
      · omega
      · exact le_trans (not_lt.mp h) (List.rel_of_sorted_cons hs x hmem)

/-- C3 (counterexample to the stated boundary): an in-memory sliding-window
operation at `now = 1000` with window 1000 on the slice `[0]` retains the
timestamp 0 even though `0 ≤ now - window`. -/
theorem memory_sliding_window_keeps_boundary :
    (0 : ℤ) ∈ (memSlidingWindow [0] 1000 1000).1 ∧ (0 : ℤ) ≤ 1000 - 1000 := by
  decide

/-- C3 (amended): after an in-memory sliding-window operation on a sorted
slice every retained timestamp `t` satisfies `now - window ≤ t` (the boundary
entry is retained), while the Redis pipeline retains only
`now - window < t` (the boundary entry is removed, as the spec states). -/
theorem sliding_window_cutoff (arr : List ℤ) (now windowMillis : ℤ)
    (hsorted : arr.Sorted (· ≤ ·)) (hW : 0 ≤ windowMillis) :
    (∀ t ∈ (memSlidingWindow arr now windowMillis).1, now - windowMillis ≤ t) ∧
    (∀ t ∈ (redisSlidingWindow arr now windowMillis).1, now - windowMillis < t) := by
  constructor
  · intro t ht
    simp only [memSlidingWindow, List.mem_append, List.mem_singleton] at ht
    rcases ht with h | rfl
    · exact sorted_dropWhile_lt_ge _ arr hsorted t h
    · omega
  · intro t ht
    simp only [redisSlidingWindow] at ht
    have := (List.mem_filter.mp ht).2
    simpa using this

/-- Witness for C3: the sorted slice `[0, 5]` at `now = 10`, window 3. -/
theorem sliding_window_cutoff_witness :
    (∀ t ∈ (memSlidingWindow [0, 5] 10 3).1, 10 - 3 ≤ t) ∧
    (∀ t ∈ (redisSlidingWindow [0, 5] 10 3).1, 10 - 3 < t) :=
  sliding_window_cutoff [0, 5] 10 3 (by simp) (by norm_num)

/-- C4 (counterexample): for capacity 100 and rate 100 tokens/s the Redis
script asks for a `PEXPIRE` of 2000000 ms, not the
`2 x ceil(capacity / rate) = 2` seconds (2000 ms) the claim states; the
in-memory store sets no expiry at all. -/
theorem redis_expiry_not_two_ceil_seconds :
    (redisTokenBucketGo none 100 100 0 1).pexpireMs = 2000000 ∧
    (2000000 : ℤ) ≠ 2 * ⌈(100 : ℚ) / 100⌉ * 1000 := by
  constructor
  · norm_num [redisTokenBucketGo, redisTokenBucketScript]
  · norm_num

/-- C4 (amended): because the Go wrapper rescales the per-second rate to
per-millisecond before the script divides `capacity / rate`, the expiry the
Redis store sets is `ceil(2000000 x capacity / rate)` milliseconds — a factor
1000 above the specified two refill periods. -/
theorem redis_expiry_formula (hash : Option (ℚ × ℚ)) (capacity : ℤ)
    (refillRate : ℚ) (now requested : ℤ) (h : 0 < refillRate) :
    (redisTokenBucketGo hash capacity refillRate now requested).pexpireMs =
      ⌈(2000000 * (capacity : ℚ)) / refillRate⌉ := by
  have hne : refillRate ≠ 0 := ne_of_gt h
  simp only [redisTokenBucketGo, redisTokenBucketScript]
  congr 1
  field_simp
  ring

/-- Witness for C4: capacity 100, rate 100/s gives
`ceil(2000000 * 100 / 100) = 2000000` ms. -/
theorem redis_expiry_formula_witness :
    (redisTokenBucketGo none 100 100 0 1).pexpireMs =
      ⌈(2000000 * ((100 : ℤ) : ℚ)) / 100⌉ :=
  redis_expiry_formula none 100 100 0 1 (by norm_num)

/-- C5 (counterexample): the Cache-Control value `"max-age=0, no-cache"`
contains the directive `no-cache` as a substring, yet `CacheableResponse`
judges a 200 response carrying it cacheable, because the code compares the
whole header value for equality instead of searching for the directive. -/
theorem cacheable_despite_no_cache_directive :
    cacheableResponse 200 "max-age=0, no-cache" = true ∧
    "no-cache".toList <:+: "max-age=0, no-cache".toList := by
  decide

/-- C5 (amended): a response is judged cacheable iff its status is 200 or 404
and its Cache-Control value is not literally equal to `"no-cache"` or
`"no-store"`. -/
theorem cacheable_iff_status_and_exact_directives (status : Nat) (cc : String) :
    cacheableResponse status cc = true ↔
      ((cc ≠ "no-cache" ∧ cc ≠ "no-store") ∧ (status = 200 ∨ status = 404)) := by
  by_cases h1 : cc = "no-cache"
  · simp [cacheableResponse, h1]
  · by_cases h2 : cc = "no-store"
    · simp [cacheableResponse, h2]
    · simp [cacheableResponse, h1, h2]

/-- C8 (counterexample): the suffix-wildcard pattern `/a/*` matches the bare
prefix path `/a/` (zero characters after the slash), which the claim
excludes. -/
theorem wildcard_matches_bare_prefix :
    matchPath "/a/*".toList "/a/".toList = true := by
  decide

/-- C8 (amended): a pattern without the `/*` suffix matches only the identical
path; a suffix-wildcard pattern `q/*` matches exactly the paths of the form
`q/` followed by zero or more characters — including the bare prefix `q/`
itself — and never matches `q`; no other wildcard syntax is honored. -/
theorem matchPath_characterization (pat q path : List Char) :
    (sufWild.isSuffixOf pat = false → (matchPath pat path = true ↔ path = pat)) ∧
    (matchPath (q ++ sufWild) path = true ↔ ∃ rest, path = q ++ '/' :: rest) ∧
    matchPath (q ++ sufWild) q = false := by
  have hsuf : sufWild.isSuffixOf (q ++ sufWild) = true := by
    rw [List.isSuffixOf_iff_suffix]
    exact List.suffix_append q sufWild
  have htake : (q ++ sufWild).take ((q ++ sufWild).length - 2) = q := by
    have hlen : (q ++ sufWild).length - 2 = q.length := by simp [sufWild]
    rw [hlen, List.take_left]
  refine ⟨?_, ?_, ?_⟩
  · intro hnosuf
    by_cases hp : pat = path
    · simp [matchPath, hp]
    · unfold matchPath
      rw [if_neg hp, if_neg (by simp [hnosuf])]
      simp only [Bool.false_eq_true, false_iff]
      exact fun h => hp h.symm
  · unfold matchPath
    by_cases hp : q ++ sufWild = path
    · rw [if_pos hp]
      simp only [true_iff]
      exact ⟨['*'], by rw [← hp]; simp [sufWild]⟩
    · rw [if_neg hp, if_pos hsuf, htake]
      rw [show ((q ++ ['/']).isPrefixOf path = true) ↔ (q ++ ['/']) <+: path from
        List.isPrefixOf_iff_prefix]
      constructor
      · rintro ⟨t, ht⟩
        exact ⟨t, by simp [← ht]⟩
      · rintro ⟨rest, rfl⟩
        exact ⟨rest, by simp⟩
  · unfold matchPath
    have hp : ¬(q ++ sufWild = q) := by
      intro h
      have := congrArg List.length h
      simp [sufWild] at this
    rw [if_neg hp, if_pos hsuf, htake]
    have hnp : ¬ ((q ++ ['/']) <+: q) := by
      intro h
      have := h.length_le
      simp at this
    cases hb : (q ++ ['/']).isPrefixOf q with
    | false => rfl
    | true => exact absurd (List.isPrefixOf_iff_prefix.mp hb) hnp

/-- Witness for C8: the exact pattern `/m` matches itself, and `/a/*` matches
`/a/x`. -/
theorem matchPath_characterization_witness :
    matchPath "/m".toList "/m".toList = true ∧
    matchPath ("/a".toList ++ sufWild) "/a/x".toList = true :=
  ⟨((matchPath_characterization "/m".toList "/a".toList "/m".toList).1
      (by decide)).mpr rfl,
   (matchPath_characterization "/m".toList "/a".toList "/a/x".toList).2.1.mpr
      ⟨['x'], by decide⟩⟩

/-- A concrete API-key table holding one disabled key `ka`. -/
def apiKeyStoreExample : String → Option APIKey := fun k =>
  if k = "ka" then
    some { key := "ka", name := "disabled key", role := "user", enabled := false,
           paths := [], rateLimit := 0 }
  else none

/-- C9 (counterexample): `ValidateKey` distinguishes a disabled key from an
unknown key by its error value, but the middleware's 401 responses for the
two requests are identical — the response does not surface the error kind
(only the log line does). -/
theorem apiKey_middleware_response_not_distinct :
    validateKey apiKeyStoreExample "ka" [] = .error ErrAPIKeyDisabled ∧
    validateKey apiKeyStoreExample "kb" [] = .error ErrInvalidAPIKey ∧
    ErrAPIKeyDisabled ≠ ErrInvalidAPIKey ∧
    apiKeyHandler apiKeyStoreExample "ka" [] = apiKeyHandler apiKeyStoreExample "kb" [] := by
  refine ⟨rfl, rfl, by decide, rfl⟩

/-- C9 (amended): `ValidateKey` yields exactly the three 401-causing error
kinds matched to their causes — unknown key, disabled key, no allowed path
matching — while the middleware passes an absent header through unchanged and
maps every validation error to one generic 401 response body. -/
theorem apiKey_validation_taxonomy (store : String → Option APIKey) (key : String)
    (path : List Char) :
    (validateKey store key path = .error ErrInvalidAPIKey ↔ store key = none) ∧
    (validateKey store key path = .error ErrAPIKeyDisabled ↔
      ∃ k, store key = some k ∧ k.enabled = false) ∧
    (validateKey store key path = .error ErrAPIKeyPathDenied ↔
      ∃ k, store key = some k ∧ k.enabled = true ∧ k.paths ≠ [] ∧
        ∀ p ∈ k.paths, matchPath p path = false) ∧
    (apiKeyHandler store "" path = .passUnchanged) ∧
    (key ≠ "" → ∀ e, validateKey store key path = .error e →
      apiKeyHandler store key path = .httpError 401 "Unauthorized: invalid API key") := by
  refine ⟨?_, ?_, ?_, ?_, ?_⟩
  · rcases hsk : store key with _ | k
    · simp [validateKey, hsk]
    · simp only [validateKey, hsk]
      split <;> try split
      all_goals simp [ErrInvalidAPIKey, ErrAPIKeyDisabled, ErrAPIKeyPathDenied]
  · rcases hsk : store key with _ | k
    · simp [validateKey, hsk, ErrInvalidAPIKey, ErrAPIKeyDisabled]
    · simp only [validateKey, hsk]
      split <;> try split
      all_goals simp_all [ErrInvalidAPIKey, ErrAPIKeyDisabled, ErrAPIKeyPathDenied]
  · rcases hsk : store key with _ | k
    · simp [validateKey, hsk, ErrInvalidAPIKey, ErrAPIKeyPathDenied]
    · simp only [validateKey, hsk]
      split <;> try split
      all_goals simp_all [ErrInvalidAPIKey, ErrAPIKeyDisabled, ErrAPIKeyPathDenied]
  · simp [apiKeyHandler]
  · intro hkey e hval
    simp [apiKeyHandler, hkey, hval]

/-- Witness for C9: the unknown key `kb` draws the generic 401 response. -/
theorem apiKey_validation_taxonomy_witness :
    apiKeyHandler apiKeyStoreExample "kb" [] =
      .httpError 401 "Unauthorized: invalid API key" :=
  (apiKey_validation_taxonomy apiKeyStoreExample "kb" []).2.2.2.2 (by decide)
    ErrInvalidAPIKey
    ((apiKey_validation_taxonomy apiKeyStoreExample "kb" []).1.mpr rfl)

end ApiGateway
